import Mathlib

/-!
Verification of the leaderboard / statistics engine of the iplant backend
(`src/controllers/userController.js`): `getLeaderboard`,
`getLeaderboardStats` (its `platformStats` block) and the per-user stats of
`getUserProfile`.

The embedding is shallow:
* the MongoDB collections (`User`, `Post`, `Comment`) become lists of
  records; a collection scan with a filter becomes `List.filter`;
  `$group` by user with `$sum` becomes a keyed map over the distinct user
  ids (MongoDB leaves the group order unspecified; we fix first-occurrence
  order, which only influences tie-breaking);
* `.sort({field: -1})`, `$sort` and JavaScript's stable `Array.sort`
  with comparator `(a, b) => b.x - a.x` become a stable structural
  `List.insertionSort` with a descending comparator (any stable sort
  realizes the same semantics);
* a JavaScript `Map` becomes an association list: `Map.set` replaces the
  value in place when the key exists and appends otherwise, `Map.get`
  is `find?`;
* timestamps are day numbers (an `Int`); `new Date()` is a calendar date
  argument `now`, and the two mutations the code performs on it,
  `setDate(getDate() - 7)` and `setMonth(getMonth() - 1)`, are modelled
  with JavaScript's day-overflow normalization (a day count larger than
  the month rolls into the following month, which is what the linear
  day-number formula gives);
* query-string parameters become `Option` values; `parseInt(q) || 10`
  over the natural-number domain becomes: absent (or unparseable) ↦ 10,
  `0` ↦ 10 (zero is falsy), positive `n` ↦ `n`.
-/

/-- JavaScript / Gregorian leap-year rule. -/
def isLeap (y : Nat) : Bool := (y % 4 == 0 && y % 100 != 0) || y % 400 == 0

/-- Month lengths, 0-based months as in JavaScript `Date`. -/
def monthLen (leap : Bool) : List Nat :=
  [31, if leap then 29 else 28, 31, 30, 31, 30, 31, 31, 30, 31, 30, 31]

def daysInYear (y : Nat) : Nat := if isLeap y then 366 else 365

def daysBeforeYear : Nat → Nat
  | 0 => 0
  | y + 1 => daysBeforeYear y + daysInYear y

/-- A calendar date as JavaScript presents it: 0-based `month`,
1-based `day`. -/
structure Date where
  year : Nat
  month : Nat
  day : Nat
deriving DecidableEq, Repr

/-- Day number of a date.  Linear in `day`, so a `day` beyond the end of
the month rolls over into the next month exactly as JavaScript `Date`
normalization does. -/
def toDayNumber (d : Date) : Int :=
  (daysBeforeYear d.year : Int) + (((monthLen (isLeap d.year)).take d.month).sum : Int)
    + (d.day : Int) - 1

/-- `new Date(); d.setDate(d.getDate() - 7)`: exactly seven days back. -/
def weekAgoDay (now : Date) : Int := toDayNumber now - 7

/-- `new Date(); d.setMonth(d.getMonth() - 1)`: the same day-of-month in
the previous calendar month (December of the previous year from January),
with day overflow rolling forward per JavaScript normalization. -/
def monthAgoDay (now : Date) : Int :=
  if now.month = 0 then toDayNumber ⟨now.year - 1, 11, now.day⟩
  else toDayNumber ⟨now.year, now.month - 1, now.day⟩

/-- The `timeFilter` built at the top of both `getLeaderboard` and
`getLeaderboardStats`: a lower bound on `createdAt` for `week`/`month`,
no bound otherwise (`timeFilter` stays `{}`). -/
def timeLowerBound (timeRange : String) (now : Date) : Option Int :=
  if timeRange = "week" then some (weekAgoDay now)
  else if timeRange = "month" then some (monthAgoDay now)
  else none

/-- `{ createdAt: { $gte: bound } }` applied to one document. -/
def matchTime : Option Int → Int → Bool
  | none, _ => true
  | some lb, t => lb ≤ t

/-- A `User` document, restricted to the fields the leaderboard code
reads (`name avatarUrl numberOfPlants`, plus `savedPosts` for the profile
stats). -/
structure User where
  id : Nat
  name : String
  avatarUrl : String
  numberOfPlants : Nat
  savedPosts : List Nat := []
deriving DecidableEq, Repr

/-- A `Post` document: owning user, likes (user ids), plant type and
creation time. -/
structure Post where
  user : Nat
  likes : List Nat
  plantType : String
  createdAt : Int
deriving DecidableEq, Repr

/-- A `Comment` document: authoring user and creation time. -/
structure Comment where
  user : Nat
  post : Nat
  createdAt : Int
deriving DecidableEq, Repr

/-- The data store backing the three collections. -/
structure Store where
  users : List User
  posts : List Post
  comments : List Comment
deriving DecidableEq, Repr

def emptyStore : Store := ⟨[], [], []⟩

/-- Posts passing the time filter (`$match: timeFilter`). -/
def timeFilteredPosts (s : Store) (tf : Option Int) : List Post :=
  s.posts.filter (fun p => matchTime tf p.createdAt)

/-- Comments passing the time filter. -/
def timeFilteredComments (s : Store) (tf : Option Int) : List Comment :=
  s.comments.filter (fun c => matchTime tf c.createdAt)

/-- Posts passing `$match: { ...timeFilter, plantType: { $ne: "Unknown" } }`. -/
def plantFilteredPosts (s : Store) (tf : Option Int) : List Post :=
  s.posts.filter (fun p => matchTime tf p.createdAt && p.plantType != "Unknown")

/-- Number of posts a user created inside the window
(`$group: { _id: "$user", postCount: { $sum: 1 } }`, one user's bucket). -/
def userPostCount (s : Store) (tf : Option Int) (uid : Nat) : Nat :=
  ((timeFilteredPosts s tf).filter (fun p => p.user == uid)).length

/-- Likes received on a user's posts inside the window
(`$project likesCount: { $size: "$likes" }` then `$group $sum`). -/
def userLikesReceived (s : Store) (tf : Option Int) (uid : Nat) : Nat :=
  (((timeFilteredPosts s tf).filter (fun p => p.user == uid)).map
    (fun p => p.likes.length)).sum

/-- Comments a user made inside the window. -/
def userCommentCount (s : Store) (tf : Option Int) (uid : Nat) : Nat :=
  ((timeFilteredComments s tf).filter (fun c => c.user == uid)).length

/-- Plant-typed posts a user created inside the window. -/
def userPlantCount (s : Store) (tf : Option Int) (uid : Nat) : Nat :=
  ((plantFilteredPosts s tf).filter (fun p => p.user == uid)).length

/-- Distinct elements of a list in order of first occurrence: the group
keys a `$group` stage produces (MongoDB does not fix their order; we use
first-seen order). -/
def keysInOrder : List Nat → List Nat
  | [] => []
  | x :: xs => x :: (keysInOrder xs).filter (fun y => y ≠ x)

/-- Distinct owners of windowed posts: the group keys of the post
aggregations. -/
def postKeys (s : Store) (tf : Option Int) : List Nat :=
  keysInOrder ((timeFilteredPosts s tf).map (fun p => p.user))

/-- Distinct authors of windowed comments. -/
def commentKeys (s : Store) (tf : Option Int) : List Nat :=
  keysInOrder ((timeFilteredComments s tf).map (fun c => c.user))

/-- Distinct owners of windowed plant-typed posts. -/
def plantKeys (s : Store) (tf : Option Int) : List Nat :=
  keysInOrder ((plantFilteredPosts s tf).map (fun p => p.user))

/-- `$group: { _id: "$user", postCount: { $sum: 1 } }` over the windowed
posts. -/
def postCountsAgg (s : Store) (tf : Option Int) : List (Nat × Nat) :=
  (postKeys s tf).map (fun u => (u, userPostCount s tf u))

/-- `$group: { _id: "$user", totalLikes: { $sum: "$likesCount" } }`. -/
def likeCountsAgg (s : Store) (tf : Option Int) : List (Nat × Nat) :=
  (postKeys s tf).map (fun u => (u, userLikesReceived s tf u))

/-- `$group: { _id: "$user", commentCount: { $sum: 1 } }` over the
windowed comments. -/
def commentCountsAgg (s : Store) (tf : Option Int) : List (Nat × Nat) :=
  (commentKeys s tf).map (fun u => (u, userCommentCount s tf u))

/-- `$group: { _id: "$user", plantCount: { $sum: 1 } }` over the windowed
plant-typed posts. -/
def plantCountsAgg (s : Store) (tf : Option Int) : List (Nat × Nat) :=
  (plantKeys s tf).map (fun u => (u, userPlantCount s tf u))

/-- The value type of the controller's `engagementMap`:
`{ posts, likes, comments, total }`. -/
structure Engagement where
  posts : Nat
  likes : Nat
  comments : Nat
  total : Nat
deriving DecidableEq, Repr

def emptyEng : Engagement := ⟨0, 0, 0, 0⟩

/-- JavaScript `Map.get` on an association list. -/
def mgetE (m : List (Nat × Engagement)) (k : Nat) : Option Engagement :=
  (m.find? (fun kv => kv.1 == k)).map (fun kv => kv.2)

/-- JavaScript `Map.set` on an association list: overwrite in place if the
key is present, append otherwise. -/
def msetE : List (Nat × Engagement) → Nat → Engagement → List (Nat × Engagement)
  | [], k, v => [(k, v)]
  | kv :: rest, k, v => if kv.1 == k then (k, v) :: rest else kv :: msetE rest k v

/-- `postCounts.forEach(...)`: seed the map with
`{ posts: c, likes: 0, comments: 0, total: c }`. -/
def stepPosts (m : List (Nat × Engagement)) (kv : Nat × Nat) : List (Nat × Engagement) :=
  msetE m kv.1 ⟨kv.2, 0, 0, kv.2⟩

/-- `likeCounts.forEach(...)`: `existing.likes = totalLikes;
existing.total += totalLikes` (missing key defaults to all zeros). -/
def stepLikes (m : List (Nat × Engagement)) (kv : Nat × Nat) : List (Nat × Engagement) :=
  let ex := (mgetE m kv.1).getD emptyEng
  msetE m kv.1 ⟨ex.posts, kv.2, ex.comments, ex.total + kv.2⟩

/-- `commentCounts.forEach(...)`: `existing.comments = commentCount;
existing.total += commentCount`. -/
def stepComments (m : List (Nat × Engagement)) (kv : Nat × Nat) : List (Nat × Engagement) :=
  let ex := (mgetE m kv.1).getD emptyEng
  msetE m kv.1 ⟨ex.posts, ex.likes, kv.2, ex.total + kv.2⟩

/-- The controller's `engagementMap` after the three `forEach` passes. -/
def engagementMapOf (s : Store) (tf : Option Int) : List (Nat × Engagement) :=
  (commentCountsAgg s tf).foldl stepComments
    ((likeCountsAgg s tf).foldl stepLikes
      ((postCountsAgg s tf).foldl stepPosts []))

/-- One element of the `leaderboard` array in the response. -/
structure Entry where
  id : Nat
  name : String
  avatarUrl : String
  numberOfPlants : Nat
  score : Nat
  category : String
  engagement : Option Engagement
  rank : Nat
deriving DecidableEq, Repr

/-- `case "plants"`, `timeRange === "all"`:
`User.find().sort({numberOfPlants: -1}).limit(limit)` then the map giving
`score: user.numberOfPlants`. -/
def plantsAllEntries (s : Store) (lim : Nat) : List Entry :=
  ((List.insertionSort (fun a b => b.numberOfPlants ≤ a.numberOfPlants) s.users).take lim).map
    (fun u =>
      { id := u.id, name := u.name, avatarUrl := u.avatarUrl,
        numberOfPlants := u.numberOfPlants, score := u.numberOfPlants,
        category := "plants", engagement := none, rank := 0 })

/-- `case "plants"`, week/month: the `plantPosts` aggregation
(group, sort desc, limit), the `$in` user fetch, the score join with 0 as
the missing default, and the final `sort((a, b) => b.score - a.score)`. -/
def plantsWindowEntries (s : Store) (tf : Option Int) (lim : Nat) : List Entry :=
  let plantPosts := (List.insertionSort (fun a b => b.2 ≤ a.2) (plantCountsAgg s tf)).take lim
  let userIds := plantPosts.map (fun kv => kv.1)
  let found := s.users.filter (fun u => userIds.contains u.id)
  let entries := found.map (fun u =>
    { id := u.id, name := u.name, avatarUrl := u.avatarUrl,
      numberOfPlants := u.numberOfPlants,
      score := match plantPosts.find? (fun pd => pd.1 == u.id) with
               | some pd => pd.2
               | none => 0,
      category := "plants", engagement := none, rank := 0 })
  List.insertionSort (fun a b => b.score ≤ a.score) entries

/-- `case "co2"`, `timeRange === "all"`: `score: user.numberOfPlants * 20`. -/
def co2AllEntries (s : Store) (lim : Nat) : List Entry :=
  ((List.insertionSort (fun a b => b.numberOfPlants ≤ a.numberOfPlants) s.users).take lim).map
    (fun u =>
      { id := u.id, name := u.name, avatarUrl := u.avatarUrl,
        numberOfPlants := u.numberOfPlants, score := u.numberOfPlants * 20,
        category := "co2", engagement := none, rank := 0 })

/-- `case "co2"`, week/month: same pipeline as the windowed plants case
with `score: impactData.plantCount * 20` (20 CO2 points per plant). -/
def co2WindowEntries (s : Store) (tf : Option Int) (lim : Nat) : List Entry :=
  let impactPosts := (List.insertionSort (fun a b => b.2 ≤ a.2) (plantCountsAgg s tf)).take lim
  let userIds := impactPosts.map (fun kv => kv.1)
  let found := s.users.filter (fun u => userIds.contains u.id)
  let entries := found.map (fun u =>
    { id := u.id, name := u.name, avatarUrl := u.avatarUrl,
      numberOfPlants := u.numberOfPlants,
      score := match impactPosts.find? (fun pd => pd.1 == u.id) with
               | some pd => pd.2 * 20
               | none => 0,
      category := "co2", engagement := none, rank := 0 })
  List.insertionSort (fun a b => b.score ≤ a.score) entries

/-- `case "engagement"`: build `engagementMap`, sort its entries by
`total` descending, `slice(0, limit)`, fetch those users, join the score
(`engagementData ? engagementData.total : 0`) and sort by score. -/
def engagementEntries (s : Store) (tf : Option Int) (lim : Nat) : List Entry :=
  let emap := engagementMapOf s tf
  let sortedEngagement := (List.insertionSort (fun a b => b.2.total ≤ a.2.total) emap).take lim
  let userIds := sortedEngagement.map (fun kv => kv.1)
  let found := s.users.filter (fun u => userIds.contains u.id)
  let entries := found.map (fun u =>
    { id := u.id, name := u.name, avatarUrl := u.avatarUrl,
      numberOfPlants := u.numberOfPlants,
      score := match mgetE emap u.id with
               | some d => d.total
               | none => 0,
      category := "engagement",
      engagement := some ((mgetE emap u.id).getD emptyEng), rank := 0 })
  List.insertionSort (fun a b => b.score ≤ a.score) entries

/-- `default:` — the fallback branch for an unrecognized category, a
verbatim copy of the all-time plants path, taken regardless of
`timeRange`. -/
def fallbackEntries (s : Store) (lim : Nat) : List Entry :=
  ((List.insertionSort (fun a b => b.numberOfPlants ≤ a.numberOfPlants) s.users).take lim).map
    (fun u =>
      { id := u.id, name := u.name, avatarUrl := u.avatarUrl,
        numberOfPlants := u.numberOfPlants, score := u.numberOfPlants,
        category := "plants", engagement := none, rank := 0 })

/-- The `switch (category)` statement. -/
def leaderboardUsers (s : Store) (category timeRange : String) (tf : Option Int)
    (lim : Nat) : List Entry :=
  if category = "plants" then
    if timeRange = "all" then plantsAllEntries s lim else plantsWindowEntries s tf lim
  else if category = "co2" then
    if timeRange = "all" then co2AllEntries s lim else co2WindowEntries s tf lim
  else if category = "engagement" then engagementEntries s tf lim
  else fallbackEntries s lim

/-- `users.forEach((user, index) => { user.rank = index + 1 })`. -/
def assignRanks : List Entry → Nat → List Entry
  | [], _ => []
  | e :: rest, i => { e with rank := i + 1 } :: assignRanks rest (i + 1)

/-- `parseInt(req.query.limit) || 10` over the natural-number domain:
an absent or unparseable parameter is `none`, and `0` is falsy. -/
def effLimit : Option Nat → Nat
  | none => 10
  | some n => if n = 0 then 10 else n

/-- The body of the JSON response of `getLeaderboard`. -/
structure LeaderboardResponse where
  leaderboard : List Entry
  category : String
  timeRange : String
  limit : Nat
  totalUsers : Nat
deriving DecidableEq, Repr

/-- `getLeaderboard` (`src/controllers/userController.js`).  `now` stands
for `new Date()`; the four query parameters are `Option`s with the
defaulting the code performs (`|| "plants"`, `|| 10`, `|| "all"`,
`|| "plants"`).  `sortByQ` is bound by the code but never used on the
success path. -/
def getLeaderboard (s : Store) (now : Date) (sortByQ categoryQ timeRangeQ : Option String)
    (limitQ : Option Nat) : LeaderboardResponse :=
  let limit := effLimit limitQ
  let timeRange := timeRangeQ.getD "all"
  let category := categoryQ.getD "plants"
  let tf := timeLowerBound timeRange now
  let users := leaderboardUsers s category timeRange tf limit
  let ranked := assignRanks users 0
  { leaderboard := ranked, category := category, timeRange := timeRange,
    limit := limit, totalUsers := ranked.length }

/-- The `platformStats` block of the `getLeaderboardStats` response
(`totalUsers` is `User.countDocuments()` with no filter; every other
total is scoped by the time filter; `environmentalImpact` is
`totalPlantsCount * 20`). -/
structure PlatformStats where
  totalUsers : Nat
  totalPosts : Nat
  totalComments : Nat
  totalLikes : Nat
  totalPlants : Nat
  environmentalImpact : Nat
  timeRange : String
  category : String
deriving DecidableEq, Repr

/-- `getLeaderboardStats`, restricted to its `platformStats` block (the
`topPerformers` / `topThree` blocks are independent queries not needed by
the properties below). -/
def getLeaderboardStats (s : Store) (now : Date) (categoryQ timeRangeQ : Option String) :
    PlatformStats :=
  let timeRange := timeRangeQ.getD "all"
  let category := categoryQ.getD "plants"
  let tf := timeLowerBound timeRange now
  { totalUsers := s.users.length,
    totalPosts := (timeFilteredPosts s tf).length,
    totalComments := (timeFilteredComments s tf).length,
    totalLikes := ((timeFilteredPosts s tf).map (fun p => p.likes.length)).sum,
    totalPlants := (plantFilteredPosts s tf).length,
    environmentalImpact := (plantFilteredPosts s tf).length * 20,
    timeRange := timeRange, category := category }

/-- The `stats` block of the `getUserProfile` response. -/
structure ProfileStats where
  posts : Nat
  plants : Nat
  likesReceived : Nat
  savedPosts : Nat
  environmentalImpact : Nat
deriving DecidableEq, Repr

/-- The per-user statistics `getUserProfile` computes:
`environmentalImpact = user.numberOfPlants * 20`. -/
def getUserProfileStats (s : Store) (u : User) : ProfileStats :=
  let posts := s.posts.filter (fun p => p.user == u.id)
  { posts := posts.length,
    plants := u.numberOfPlants,
    likesReceived := (posts.map (fun p => p.likes.length)).sum,
    savedPosts := u.savedPosts.length,
    environmentalImpact := u.numberOfPlants * 20 }

/-! ### Concrete instances used to exercise the endpoints -/

/-- A fixed "current" date: February 15 of year 1 (month `1` is February
in JavaScript's 0-based convention). -/
def exNow : Date := ⟨1, 1, 15⟩

/-- One user with 2 posts (one of them plant-typed), 3 likes received in
total and 1 comment made: the engagement scenario of the spec. -/
def exStoreEngagement : Store :=
  ⟨[⟨1, "U", "", 0, []⟩],
   [⟨1, [2, 3], "Rose", 400⟩, ⟨1, [4], "Unknown", 400⟩],
   [⟨1, 9, 400⟩]⟩

/-- The engagement leaderboard entry the store above produces. -/
def exEntryEngagement : Entry := ⟨1, "U", "", 0, 6, "engagement", some ⟨2, 3, 1, 6⟩, 1⟩

/-- User A has a large lifetime counter but no recent posts; user B has a
small counter but two plant posts created "now". -/
def exStoreTwoUsers : Store :=
  ⟨[⟨1, "A", "", 10, []⟩, ⟨2, "B", "", 1, []⟩],
   [⟨2, [], "Rose", 411⟩, ⟨2, [], "Rose", 411⟩], []⟩

/-- One user whose stored counter says 5 plants but who has no posts and
no comments at all. -/
def exStoreCounter : Store := ⟨[⟨1, "U", "", 5, []⟩], [], []⟩

/-- Same single user (same stored counter) but with one old post. -/
def exStoreScan : Store := ⟨[⟨1, "U", "", 5, []⟩], [⟨1, [], "Rose", 0⟩], []⟩

/-- The co2 leaderboard entry `exStoreCounter` produces for `all`. -/
def exEntryCo2 : Entry := ⟨1, "U", "", 5, 100, "co2", none, 1⟩

/-! ### Distinct group keys -/

theorem mem_keysInOrder {a : Nat} : ∀ {l : List Nat}, a ∈ keysInOrder l ↔ a ∈ l := by
  intro l
  induction l with
  | nil => simp [keysInOrder]
  | cons x xs ih =>
    by_cases hax : a = x
    · subst hax; simp [keysInOrder]
    · simp [keysInOrder, List.mem_filter, ih, hax]

theorem keysInOrder_nodup : ∀ (l : List Nat), (keysInOrder l).Nodup := by
  intro l
  induction l with
  | nil => simp [keysInOrder]
  | cons x xs ih =>
    simp only [keysInOrder, List.nodup_cons]
    constructor
    · intro hmem
      rcases List.mem_filter.mp hmem with ⟨_, hne⟩
      simp at hne
    · exact ih.filter _

theorem map_fst_keyed {β : Type} (f : Nat → β) (l : List Nat) :
    (l.map (fun x => (x, f x))).map Prod.fst = l := by
  induction l with
  | nil => rfl
  | cons x xs ih => simp [ih]

theorem find?_keyed_mem {β : Type} (f : Nat → β) {keys : List Nat} {k : Nat} (h : k ∈ keys) :
    (keys.map (fun x => (x, f x))).find? (fun kv => kv.1 == k) = some (k, f k) := by
  induction keys with
  | nil => cases h
  | cons x xs ih =>
    by_cases hxk : x = k
    · subst hxk
      simp [List.find?_cons]
    · have h' : k ∈ xs := by
        rcases List.mem_cons.mp h with h1 | h2
        · exact absurd h1.symm hxk
        · exact h2
      simp [List.find?_cons, hxk, ih h']

theorem find?_keyed_not_mem {β : Type} (f : Nat → β) {keys : List Nat} {k : Nat}
    (h : k ∉ keys) :
    (keys.map (fun x => (x, f x))).find? (fun kv => kv.1 == k) = none := by
  apply List.find?_eq_none.mpr
  intro kv hkv
  rcases List.mem_map.mp hkv with ⟨x, hx, rfl⟩
  simp only [beq_iff_eq]
  intro h'
  exact h (h' ▸ hx)

/-! ### JavaScript `Map` semantics -/

theorem mgetE_nil (k : Nat) : mgetE [] k = none := rfl

theorem mgetE_cons (kv : Nat × Engagement) (m : List (Nat × Engagement)) (k : Nat) :
    mgetE (kv :: m) k = if kv.1 = k then some kv.2 else mgetE m k := by
  by_cases h : kv.1 = k
  · simp [mgetE, List.find?_cons, h]
  · simp [mgetE, List.find?_cons, h]

theorem msetE_cons (kv : Nat × Engagement) (m : List (Nat × Engagement)) (k : Nat)
    (v : Engagement) :
    msetE (kv :: m) k v = if kv.1 = k then (k, v) :: m else kv :: msetE m k v := by
  by_cases h : kv.1 = k
  · simp [msetE, h]
  · simp [msetE, h]

theorem mgetE_msetE_self (m : List (Nat × Engagement)) (k : Nat) (v : Engagement) :
    mgetE (msetE m k v) k = some v := by
  induction m with
  | nil => simp [msetE, mgetE_cons]
  | cons kv rest ih =>
    rw [msetE_cons]
    by_cases h : kv.1 = k
    · simp [h, mgetE_cons]
    · simp [h, mgetE_cons, ih]

theorem mgetE_msetE_ne (m : List (Nat × Engagement)) {k k' : Nat} (v : Engagement)
    (h : k' ≠ k) : mgetE (msetE m k v) k' = mgetE m k' := by
  induction m with
  | nil => simp [msetE, mgetE_cons, mgetE_nil, Ne.symm h]
  | cons kv rest ih =>
    rw [msetE_cons]
    by_cases hk : kv.1 = k
    · rw [if_pos hk, mgetE_cons, mgetE_cons, hk, if_neg (Ne.symm h), if_neg (Ne.symm h)]
    · rw [if_neg hk, mgetE_cons, mgetE_cons, ih]

/-- Folding a per-key update over a list of key/value pairs with distinct
keys: each key is written once, reading the value the initial map holds. -/
theorem mgetE_fold (upd : Option Engagement → Nat → Engagement)
    (step : List (Nat × Engagement) → Nat × Nat → List (Nat × Engagement))
    (hstep : ∀ m kv, step m kv = msetE m kv.1 (upd (mgetE m kv.1) kv.2)) :
    ∀ (L : List (Nat × Nat)) (m : List (Nat × Engagement)) (k : Nat),
      (L.map Prod.fst).Nodup →
      mgetE (L.foldl step m) k =
        match L.find? (fun kv => kv.1 == k) with
        | some kv => some (upd (mgetE m k) kv.2)
        | none => mgetE m k := by
  intro L
  induction L with
  | nil => intro m k _; rfl
  | cons kv0 rest ih =>
    intro m k hnd
    have hnd2 : (∀ x, (kv0.1, x) ∉ rest) ∧ (rest.map Prod.fst).Nodup := by simpa using hnd
    have hk0 : ∀ x ∈ rest, x.1 ≠ kv0.1 := by
      intro x hx he
      exact hnd2.1 x.2 (by rw [← he]; exact hx)
    rw [List.foldl_cons, hstep, ih _ k hnd2.2]
    by_cases hkk : kv0.1 = k
    · subst hkk
      have hfind : rest.find? (fun kv => kv.1 == kv0.1) = none := by
        apply List.find?_eq_none.mpr
        intro x hx
        simp only [beq_iff_eq]
        exact hk0 x hx
      rw [hfind]
      simp [List.find?_cons, mgetE_msetE_self]
    · rw [mgetE_msetE_ne _ _ (fun he => hkk he.symm)]
      have hhead : (kv0.1 == k) = false := by
        simp [hkk]
      simp [List.find?_cons, hhead]

/-! ### Counts of users outside the key sets are zero -/

theorem filter_postUser_eq_nil {s : Store} {tf : Option Int} {k : Nat}
    (h : k ∉ postKeys s tf) :
    (timeFilteredPosts s tf).filter (fun p => p.user == k) = [] := by
  apply List.filter_eq_nil_iff.mpr
  intro p hp
  simp only [beq_iff_eq]
  intro he
  exact h (mem_keysInOrder.mpr (he ▸ List.mem_map_of_mem (fun p => p.user) hp))

theorem filter_commentUser_eq_nil {s : Store} {tf : Option Int} {k : Nat}
    (h : k ∉ commentKeys s tf) :
    (timeFilteredComments s tf).filter (fun c => c.user == k) = [] := by
  apply List.filter_eq_nil_iff.mpr
  intro c hc
  simp only [beq_iff_eq]
  intro he
  exact h (mem_keysInOrder.mpr (he ▸ List.mem_map_of_mem (fun c => c.user) hc))

theorem filter_plantUser_eq_nil {s : Store} {tf : Option Int} {k : Nat}
    (h : k ∉ plantKeys s tf) :
    (plantFilteredPosts s tf).filter (fun p => p.user == k) = [] := by
  apply List.filter_eq_nil_iff.mpr
  intro p hp
  simp only [beq_iff_eq]
  intro he
  exact h (mem_keysInOrder.mpr (he ▸ List.mem_map_of_mem (fun p => p.user) hp))

theorem userPostCount_eq_zero {s : Store} {tf : Option Int} {k : Nat}
    (h : k ∉ postKeys s tf) : userPostCount s tf k = 0 := by
  rw [userPostCount, filter_postUser_eq_nil h]
  rfl

theorem userLikesReceived_eq_zero {s : Store} {tf : Option Int} {k : Nat}
    (h : k ∉ postKeys s tf) : userLikesReceived s tf k = 0 := by
  rw [userLikesReceived, filter_postUser_eq_nil h]
  rfl

theorem userCommentCount_eq_zero {s : Store} {tf : Option Int} {k : Nat}
    (h : k ∉ commentKeys s tf) : userCommentCount s tf k = 0 := by
  rw [userCommentCount, filter_commentUser_eq_nil h]
  rfl

theorem userPlantCount_eq_zero {s : Store} {tf : Option Int} {k : Nat}
    (h : k ∉ plantKeys s tf) : userPlantCount s tf k = 0 := by
  rw [userPlantCount, filter_plantUser_eq_nil h]
  rfl

/-! ### Characterizing the engagement map -/

theorem mgetE_phase1 (s : Store) (tf : Option Int) (k : Nat) :
    mgetE ((postCountsAgg s tf).foldl stepPosts []) k =
      if k ∈ postKeys s tf then
        some ⟨userPostCount s tf k, 0, 0, userPostCount s tf k⟩
      else none := by
  rw [mgetE_fold (fun _ v => ⟨v, 0, 0, v⟩) stepPosts (fun m kv => rfl)
    (postCountsAgg s tf) [] k
    (by rw [postCountsAgg, map_fst_keyed]; exact keysInOrder_nodup _)]
  by_cases hk : k ∈ postKeys s tf
  · rw [postCountsAgg, find?_keyed_mem _ hk]
    simp [hk]
  · rw [postCountsAgg, find?_keyed_not_mem _ hk]
    simp [hk, mgetE_nil]

theorem mgetE_phase2 (s : Store) (tf : Option Int) (k : Nat) :
    mgetE ((likeCountsAgg s tf).foldl stepLikes
        ((postCountsAgg s tf).foldl stepPosts [])) k =
      if k ∈ postKeys s tf then
        some ⟨userPostCount s tf k, userLikesReceived s tf k, 0,
              userPostCount s tf k + userLikesReceived s tf k⟩
      else none := by
  rw [mgetE_fold
    (fun o v => ⟨(o.getD emptyEng).posts, v, (o.getD emptyEng).comments,
      (o.getD emptyEng).total + v⟩)
    stepLikes (fun m kv => rfl) (likeCountsAgg s tf) _ k
    (by rw [likeCountsAgg, map_fst_keyed]; exact keysInOrder_nodup _)]
  by_cases hk : k ∈ postKeys s tf
  · rw [likeCountsAgg, find?_keyed_mem _ hk, mgetE_phase1]
    simp [hk]
  · rw [likeCountsAgg, find?_keyed_not_mem _ hk, mgetE_phase1]
    simp [hk]

theorem mgetE_engagementMapOf (s : Store) (tf : Option Int) (k : Nat) :
    mgetE (engagementMapOf s tf) k =
      if k ∈ postKeys s tf then
        if k ∈ commentKeys s tf then
          some ⟨userPostCount s tf k, userLikesReceived s tf k, userCommentCount s tf k,
                userPostCount s tf k + userLikesReceived s tf k + userCommentCount s tf k⟩
        else
          some ⟨userPostCount s tf k, userLikesReceived s tf k, 0,
                userPostCount s tf k + userLikesReceived s tf k⟩
      else
        if k ∈ commentKeys s tf then
          some ⟨0, 0, userCommentCount s tf k, userCommentCount s tf k⟩
        else none := by
  rw [engagementMapOf, mgetE_fold
    (fun o v => ⟨(o.getD emptyEng).posts, (o.getD emptyEng).likes, v,
      (o.getD emptyEng).total + v⟩)
    stepComments (fun m kv => rfl) (commentCountsAgg s tf) _ k
    (by rw [commentCountsAgg, map_fst_keyed]; exact keysInOrder_nodup _)]
  by_cases hc : k ∈ commentKeys s tf
  · rw [commentCountsAgg, find?_keyed_mem _ hc, mgetE_phase2]
    by_cases hp : k ∈ postKeys s tf
    · simp [hp, hc, emptyEng]
    · simp [hp, hc, emptyEng]
  · rw [commentCountsAgg, find?_keyed_not_mem _ hc, mgetE_phase2]
    by_cases hp : k ∈ postKeys s tf
    · simp [hp, hc, emptyEng]
    · simp [hp, hc, emptyEng]

/-- The score the engagement branch assigns to a user id is the sum of
posts, likes received and comments made in the window. -/
theorem engagementScore_eq (s : Store) (tf : Option Int) (k : Nat) :
    (match mgetE (engagementMapOf s tf) k with
     | some d => d.total
     | none => 0)
      = userPostCount s tf k + userLikesReceived s tf k + userCommentCount s tf k := by
  rw [mgetE_engagementMapOf]
  by_cases hp : k ∈ postKeys s tf <;> by_cases hc : k ∈ commentKeys s tf
  · simp [hp, hc]
  · simp [hp, hc, userCommentCount_eq_zero hc]
  · simp [hp, hc, userPostCount_eq_zero hp, userLikesReceived_eq_zero hp]
  · simp [hp, hc, userPostCount_eq_zero hp, userLikesReceived_eq_zero hp,
      userCommentCount_eq_zero hc]

/-! ### Scores per branch -/

theorem mem_plantAgg_snd {s : Store} {tf : Option Int} {lim : Nat} {pd : Nat × Nat}
    (h : pd ∈ (List.insertionSort (fun a b => b.2 ≤ a.2) (plantCountsAgg s tf)).take lim) :
    pd.2 = userPlantCount s tf pd.1 := by
  have h1 : pd ∈ plantCountsAgg s tf :=
    (List.perm_insertionSort _ _).mem_iff.mp (List.mem_of_mem_take h)
  rcases List.mem_map.mp h1 with ⟨u, _, rfl⟩
  rfl

theorem score_plantsAll {s : Store} {lim : Nat} {e : Entry}
    (he : e ∈ plantsAllEntries s lim) : e.score = e.numberOfPlants := by
  simp only [plantsAllEntries] at he
  rcases List.mem_map.mp he with ⟨u, _, rfl⟩
  rfl

theorem score_co2All {s : Store} {lim : Nat} {e : Entry}
    (he : e ∈ co2AllEntries s lim) : e.score = e.numberOfPlants * 20 := by
  simp only [co2AllEntries] at he
  rcases List.mem_map.mp he with ⟨u, _, rfl⟩
  rfl

theorem score_fallback {s : Store} {lim : Nat} {e : Entry}
    (he : e ∈ fallbackEntries s lim) : e.score = e.numberOfPlants := by
  simp only [fallbackEntries] at he
  rcases List.mem_map.mp he with ⟨u, _, rfl⟩
  rfl

theorem score_plantsWindow {s : Store} {tf : Option Int} {lim : Nat} {e : Entry}
    (he : e ∈ plantsWindowEntries s tf lim) : e.score = userPlantCount s tf e.id := by
  simp only [plantsWindowEntries] at he
  have he := (List.perm_insertionSort _ _).mem_iff.mp he
  rcases List.mem_map.mp he with ⟨u, hu, rfl⟩
  have hid := (List.mem_filter.mp hu).2
  cases hfind : ((List.insertionSort (fun a b => b.2 ≤ a.2) (plantCountsAgg s tf)).take lim).find?
      (fun pd => pd.1 == u.id) with
  | some pd =>
    have hp : pd.1 = u.id := by simpa using List.find?_some hfind
    have hval := mem_plantAgg_snd (List.mem_of_find?_eq_some hfind)
    simp only [hfind]
    rw [hval, hp]
  | none =>
    exfalso
    have hm : u.id ∈ ((List.insertionSort (fun a b => b.2 ≤ a.2) (plantCountsAgg s tf)).take
        lim).map (fun kv => kv.1) := by
      simpa only [List.elem_iff] using hid
    rcases List.mem_map.mp hm with ⟨pd, hpd, hpd1⟩
    have := List.find?_eq_none.mp hfind pd hpd
    simp [hpd1] at this

theorem score_co2Window {s : Store} {tf : Option Int} {lim : Nat} {e : Entry}
    (he : e ∈ co2WindowEntries s tf lim) : e.score = userPlantCount s tf e.id * 20 := by
  simp only [co2WindowEntries] at he
  have he := (List.perm_insertionSort _ _).mem_iff.mp he
  rcases List.mem_map.mp he with ⟨u, hu, rfl⟩
  have hid := (List.mem_filter.mp hu).2
  cases hfind : ((List.insertionSort (fun a b => b.2 ≤ a.2) (plantCountsAgg s tf)).take lim).find?
      (fun pd => pd.1 == u.id) with
  | some pd =>
    have hp : pd.1 = u.id := by simpa using List.find?_some hfind
    have hval := mem_plantAgg_snd (List.mem_of_find?_eq_some hfind)
    simp only [hfind]
    rw [hval, hp]
  | none =>
    exfalso
    have hm : u.id ∈ ((List.insertionSort (fun a b => b.2 ≤ a.2) (plantCountsAgg s tf)).take
        lim).map (fun kv => kv.1) := by
      simpa only [List.elem_iff] using hid
    rcases List.mem_map.mp hm with ⟨pd, hpd, hpd1⟩
    have := List.find?_eq_none.mp hfind pd hpd
    simp [hpd1] at this

theorem score_engagement {s : Store} {tf : Option Int} {lim : Nat} {e : Entry}
    (he : e ∈ engagementEntries s tf lim) :
    e.score = userPostCount s tf e.id + userLikesReceived s tf e.id
      + userCommentCount s tf e.id := by
  simp only [engagementEntries] at he
  have he := (List.perm_insertionSort _ _).mem_iff.mp he
  rcases List.mem_map.mp he with ⟨u, _, rfl⟩
  exact engagementScore_eq s tf u.id

/-! ### Ranks and lengths -/

theorem assignRanks_length (l : List Entry) : ∀ i, (assignRanks l i).length = l.length := by
  induction l with
  | nil => intro i; rfl
  | cons e rest ih => intro i; simp [assignRanks, ih]

theorem assignRanks_map_rank (l : List Entry) :
    ∀ i, (assignRanks l i).map (fun e => e.rank) = List.range' (i + 1) l.length := by
  induction l with
  | nil => intro i; rfl
  | cons e rest ih =>
    intro i
    simp only [assignRanks, List.map_cons, List.length_cons, List.range'_succ, ih (i + 1)]

theorem mem_assignRanks {l : List Entry} {e : Entry} :
    ∀ {i}, e ∈ assignRanks l i →
      ∃ e' ∈ l, e.score = e'.score ∧ e.id = e'.id ∧ e.numberOfPlants = e'.numberOfPlants := by
  induction l with
  | nil => intro i h; cases h
  | cons e0 rest ih =>
    intro i h
    rcases List.mem_cons.mp h with h0 | h1
    · exact ⟨e0, List.mem_cons_self _ _, by rw [h0], by rw [h0], by rw [h0]⟩
    · rcases ih h1 with ⟨e', he', hp⟩
      exact ⟨e', List.mem_cons_of_mem _ he', hp⟩

theorem length_filter_contains_le (users : List User) (ids : List Nat)
    (hu : (users.map (fun u => u.id)).Nodup) :
    (users.filter (fun u => ids.contains u.id)).length ≤ ids.length := by
  classical
  have hs : (users.filter (fun u => ids.contains u.id)).Sublist users :=
    List.filter_sublist _
  have h1 : ((users.filter (fun u => ids.contains u.id)).map (fun u => u.id)).Nodup :=
    List.Nodup.sublist (hs.map (fun u => u.id)) hu
  have h2 : ((users.filter (fun u => ids.contains u.id)).map (fun u => u.id)).toFinset
      ⊆ ids.toFinset := by
    intro x hx
    rcases List.mem_map.mp (List.mem_toFinset.mp hx) with ⟨u, hu2, rfl⟩
    have hmem := (List.mem_filter.mp hu2).2
    exact List.mem_toFinset.mpr (by simpa only [List.elem_iff] using hmem)
  calc (users.filter (fun u => ids.contains u.id)).length
      = ((users.filter (fun u => ids.contains u.id)).map (fun u => u.id)).length :=
        (List.length_map _ _).symm
    _ = ((users.filter (fun u => ids.contains u.id)).map (fun u => u.id)).toFinset.card :=
        (List.toFinset_card_of_nodup h1).symm
    _ ≤ ids.toFinset.card := Finset.card_le_card h2
    _ ≤ ids.length := List.toFinset_card_le _

theorem length_plantsAllEntries (s : Store) (lim : Nat) :
    (plantsAllEntries s lim).length ≤ lim := by
  simp only [plantsAllEntries, List.length_map, List.length_take]
  exact min_le_left _ _

theorem length_co2AllEntries (s : Store) (lim : Nat) :
    (co2AllEntries s lim).length ≤ lim := by
  simp only [co2AllEntries, List.length_map, List.length_take]
  exact min_le_left _ _

theorem length_fallbackEntries (s : Store) (lim : Nat) :
    (fallbackEntries s lim).length ≤ lim := by
  simp only [fallbackEntries, List.length_map, List.length_take]
  exact min_le_left _ _

theorem length_plantsWindowEntries (s : Store) (tf : Option Int) (lim : Nat)
    (hu : (s.users.map (fun u => u.id)).Nodup) :
    (plantsWindowEntries s tf lim).length ≤ lim := by
  simp only [plantsWindowEntries]
  rw [(List.perm_insertionSort _ _).length_eq, List.length_map]
  calc (s.users.filter (fun u =>
        (((List.insertionSort (fun a b => b.2 ≤ a.2) (plantCountsAgg s tf)).take lim).map
          (fun kv => kv.1)).contains u.id)).length
      ≤ (((List.insertionSort (fun a b => b.2 ≤ a.2) (plantCountsAgg s tf)).take lim).map
          (fun kv => kv.1)).length := length_filter_contains_le _ _ hu
    _ = ((List.insertionSort (fun a b => b.2 ≤ a.2) (plantCountsAgg s tf)).take lim).length :=
        List.length_map _ _
    _ ≤ lim := by rw [List.length_take]; exact min_le_left _ _

theorem length_co2WindowEntries (s : Store) (tf : Option Int) (lim : Nat)
    (hu : (s.users.map (fun u => u.id)).Nodup) :
    (co2WindowEntries s tf lim).length ≤ lim := by
  simp only [co2WindowEntries]
  rw [(List.perm_insertionSort _ _).length_eq, List.length_map]
  calc (s.users.filter (fun u =>
        (((List.insertionSort (fun a b => b.2 ≤ a.2) (plantCountsAgg s tf)).take lim).map
          (fun kv => kv.1)).contains u.id)).length
      ≤ (((List.insertionSort (fun a b => b.2 ≤ a.2) (plantCountsAgg s tf)).take lim).map
          (fun kv => kv.1)).length := length_filter_contains_le _ _ hu
    _ = ((List.insertionSort (fun a b => b.2 ≤ a.2) (plantCountsAgg s tf)).take lim).length :=
        List.length_map _ _
    _ ≤ lim := by rw [List.length_take]; exact min_le_left _ _

theorem length_engagementEntries (s : Store) (tf : Option Int) (lim : Nat)
    (hu : (s.users.map (fun u => u.id)).Nodup) :
    (engagementEntries s tf lim).length ≤ lim := by
  simp only [engagementEntries]
  rw [(List.perm_insertionSort _ _).length_eq, List.length_map]
  calc (s.users.filter (fun u =>
        (((List.insertionSort (fun a b => b.2.total ≤ a.2.total) (engagementMapOf s tf)).take
          lim).map (fun kv => kv.1)).contains u.id)).length
      ≤ (((List.insertionSort (fun a b => b.2.total ≤ a.2.total) (engagementMapOf s tf)).take
          lim).map (fun kv => kv.1)).length := length_filter_contains_le _ _ hu
    _ = ((List.insertionSort (fun a b => b.2.total ≤ a.2.total) (engagementMapOf s tf)).take
          lim).length := List.length_map _ _
    _ ≤ lim := by rw [List.length_take]; exact min_le_left _ _

theorem length_leaderboardUsers (s : Store) (cat tr : String) (tf : Option Int) (lim : Nat)
    (hu : (s.users.map (fun u => u.id)).Nodup) :
    (leaderboardUsers s cat tr tf lim).length ≤ lim := by
  rw [leaderboardUsers]
  split_ifs
  · exact length_plantsAllEntries s lim
  · exact length_plantsWindowEntries s tf lim hu
  · exact length_co2AllEntries s lim
  · exact length_co2WindowEntries s tf lim hu
  · exact length_engagementEntries s tf lim hu
  · exact length_fallbackEntries s lim

/-! ### The empty store -/

theorem leaderboardUsers_empty (cat tr : String) (tf : Option Int) (lim : Nat) :
    leaderboardUsers emptyStore cat tr tf lim = [] := by
  rw [leaderboardUsers]
  split_ifs <;>
    simp [plantsAllEntries, plantsWindowEntries, co2AllEntries, co2WindowEntries,
      engagementEntries, fallbackEntries, emptyStore]

/-! ### Plumbing: projections of the responses -/

theorem getLeaderboard_leaderboard_eq (s : Store) (now : Date) (sb cat tr : Option String)
    (lim : Option Nat) :
    (getLeaderboard s now sb cat tr lim).leaderboard =
      assignRanks (leaderboardUsers s (cat.getD "plants") (tr.getD "all")
        (timeLowerBound (tr.getD "all") now) (effLimit lim)) 0 := rfl

theorem leaderboardUsers_plants_all (s : Store) (tf : Option Int) (lim : Nat) :
    leaderboardUsers s "plants" "all" tf lim = plantsAllEntries s lim := by
  rw [leaderboardUsers, if_pos rfl, if_pos rfl]

theorem leaderboardUsers_plants_window (s : Store) (tr : String) (tf : Option Int)
    (lim : Nat) (h : tr ≠ "all") :
    leaderboardUsers s "plants" tr tf lim = plantsWindowEntries s tf lim := by
  rw [leaderboardUsers, if_pos rfl, if_neg h]

theorem leaderboardUsers_co2_all (s : Store) (tf : Option Int) (lim : Nat) :
    leaderboardUsers s "co2" "all" tf lim = co2AllEntries s lim := by
  rw [leaderboardUsers, if_neg (by decide), if_pos rfl, if_pos rfl]

theorem leaderboardUsers_co2_window (s : Store) (tr : String) (tf : Option Int)
    (lim : Nat) (h : tr ≠ "all") :
    leaderboardUsers s "co2" tr tf lim = co2WindowEntries s tf lim := by
  rw [leaderboardUsers, if_neg (by decide), if_pos rfl, if_neg h]

theorem leaderboardUsers_engagement (s : Store) (tr : String) (tf : Option Int) (lim : Nat) :
    leaderboardUsers s "engagement" tr tf lim = engagementEntries s tf lim := by
  rw [leaderboardUsers, if_neg (by decide), if_neg (by decide), if_pos rfl]

theorem leaderboardUsers_fallbackCase (s : Store) (cat tr : String) (tf : Option Int)
    (lim : Nat) (h1 : cat ≠ "plants") (h2 : cat ≠ "co2") (h3 : cat ≠ "engagement") :
    leaderboardUsers s cat tr tf lim = fallbackEntries s lim := by
  rw [leaderboardUsers, if_neg h1, if_neg h2, if_neg h3]

theorem fallbackEntries_eq_plantsAll (s : Store) (lim : Nat) :
    fallbackEntries s lim = plantsAllEntries s lim := rfl

theorem timeLowerBound_all (now : Date) : timeLowerBound "all" now = none := rfl

/-- Shared by the fallback claims: an unrecognized category produces the
same leaderboard as `category=plants` with `timeRange=all`, whatever the
requested time range. -/
theorem fallback_board_eq (s : Store) (now : Date) (sb tr : Option String)
    (lim : Option Nat) (cat : Option String)
    (h : cat.getD "plants" ∉ (["plants", "co2", "engagement"] : List String)) :
    (getLeaderboard s now sb cat tr lim).leaderboard
      = (getLeaderboard s now sb (some "plants") (some "all") lim).leaderboard := by
  simp only [List.mem_cons, List.mem_singleton, not_or] at h
  rw [getLeaderboard_leaderboard_eq, getLeaderboard_leaderboard_eq]
  simp only [Option.getD_some]
  rw [leaderboardUsers_fallbackCase s _ _ _ _ h.1 h.2.1 h.2.2.1,
    leaderboardUsers_plants_all, fallbackEntries_eq_plantsAll]

/-- No plant-typed post in the window: the windowed plants pipeline has
no groups, the `$in` fetch matches nobody, the board is empty. -/
theorem plantsWindowEntries_nil {s : Store} {tf : Option Int} (lim : Nat)
    (h : plantFilteredPosts s tf = []) : plantsWindowEntries s tf lim = [] := by
  simp [plantsWindowEntries, plantCountsAgg, plantKeys, h, keysInOrder,
    List.insertionSort]

/-- Same for the windowed co2 pipeline. -/
theorem co2WindowEntries_nil {s : Store} {tf : Option Int} (lim : Nat)
    (h : plantFilteredPosts s tf = []) : co2WindowEntries s tf lim = [] := by
  simp [co2WindowEntries, plantCountsAgg, plantKeys, h, keysInOrder,
    List.insertionSort]

/-- No post and no comment in the window: the engagement map is empty and
so is the board. -/
theorem engagementEntries_nil {s : Store} {tf : Option Int} (lim : Nat)
    (hp : timeFilteredPosts s tf = []) (hc : timeFilteredComments s tf = []) :
    engagementEntries s tf lim = [] := by
  simp [engagementEntries, engagementMapOf, postCountsAgg, likeCountsAgg,
    commentCountsAgg, postKeys, commentKeys, hp, hc, keysInOrder,
    List.insertionSort]

/-- With no user documents every branch produces an empty board, whatever
the posts and comments hold. -/
theorem leaderboardUsers_users_nil (s : Store) (cat tr : String) (tf : Option Int)
    (lim : Nat) (h : s.users = []) : leaderboardUsers s cat tr tf lim = [] := by
  rw [leaderboardUsers]
  split_ifs <;>
    simp [plantsAllEntries, plantsWindowEntries, co2AllEntries, co2WindowEntries,
      engagementEntries, fallbackEntries, h, List.insertionSort]

/-! ### The claims -/

/-- C1: in every response of `getLeaderboard` the `rank` fields of the
returned entries are exactly `1..N` in positional order — the first entry
has rank 1 and each subsequent rank is the previous plus one, with no
duplicates and no gaps — for every store, category, time range and
limit. -/
theorem getLeaderboard_rank_exact (s : Store) (now : Date) (sb cat tr : Option String)
    (lim : Option Nat) :
    (getLeaderboard s now sb cat tr lim).leaderboard.map (fun e => e.rank)
      = List.range' 1 (getLeaderboard s now sb cat tr lim).leaderboard.length := by
  rw [getLeaderboard_leaderboard_eq, assignRanks_map_rank, assignRanks_length]

/-- C2: every entry of the engagement leaderboard scores exactly the
user's post count plus likes received plus comments made within the
requested window. -/
theorem getLeaderboard_engagement_score (s : Store) (now : Date) (sb tr : Option String)
    (lim : Option Nat) (e : Entry)
    (he : e ∈ (getLeaderboard s now sb (some "engagement") tr lim).leaderboard) :
    e.score = userPostCount s (timeLowerBound (tr.getD "all") now) e.id
      + userLikesReceived s (timeLowerBound (tr.getD "all") now) e.id
      + userCommentCount s (timeLowerBound (tr.getD "all") now) e.id := by
  rw [getLeaderboard_leaderboard_eq] at he
  simp only [Option.getD_some] at he
  rcases mem_assignRanks he with ⟨e', he', hs, hid, _⟩
  rw [leaderboardUsers_engagement] at he'
  rw [hs, hid]
  exact score_engagement he'

/-- C2 witness: in a store where one user has 2 posts, 3 likes received
and 1 comment made, that user's engagement entry is on the board and the
formula applies (its score is 2 + 3 + 1 = 6). -/
theorem getLeaderboard_engagement_score_witness :
    exEntryEngagement
      ∈ (getLeaderboard exStoreEngagement exNow none (some "engagement") (some "all")
          none).leaderboard
    ∧ exEntryEngagement.score
        = userPostCount exStoreEngagement (timeLowerBound "all" exNow) exEntryEngagement.id
          + userLikesReceived exStoreEngagement (timeLowerBound "all" exNow)
              exEntryEngagement.id
          + userCommentCount exStoreEngagement (timeLowerBound "all" exNow)
              exEntryEngagement.id
    ∧ exEntryEngagement.score = 6 :=
  ⟨by decide,
   getLeaderboard_engagement_score exStoreEngagement exNow none (some "all") none
     exEntryEngagement (by decide),
   by decide⟩

/-- C3: `environmentalImpact` is the plant count times 20 everywhere it
is computed — co2 leaderboard scores (stored counter for all-time,
windowed plant count otherwise), the platform aggregate of
`getLeaderboardStats` for every time range, and the per-user profile
stat. -/
theorem environmentalImpact_times20 (s : Store) (now : Date) (sb : Option String)
    (lim : Option Nat) :
    (∀ e ∈ (getLeaderboard s now sb (some "co2") (some "all") lim).leaderboard,
        e.score = e.numberOfPlants * 20)
  ∧ (∀ tr : Option String, tr.getD "all" ≠ "all" →
      ∀ e ∈ (getLeaderboard s now sb (some "co2") tr lim).leaderboard,
        e.score = userPlantCount s (timeLowerBound (tr.getD "all") now) e.id * 20)
  ∧ (∀ cat tr : Option String,
      (getLeaderboardStats s now cat tr).environmentalImpact
        = (getLeaderboardStats s now cat tr).totalPlants * 20)
  ∧ (∀ u : User, (getUserProfileStats s u).environmentalImpact = u.numberOfPlants * 20) := by
  refine ⟨?_, ?_, fun _ _ => rfl, fun _ => rfl⟩
  · intro e he
    rw [getLeaderboard_leaderboard_eq] at he
    simp only [Option.getD_some] at he
    rcases mem_assignRanks he with ⟨e', he', hs, _, hnp⟩
    rw [leaderboardUsers_co2_all] at he'
    rw [hs, hnp]
    exact score_co2All he'
  · intro tr htr e he
    rw [getLeaderboard_leaderboard_eq] at he
    simp only [Option.getD_some] at he
    rw [leaderboardUsers_co2_window _ _ _ _ htr] at he
    rcases mem_assignRanks he with ⟨e', he', hs, hid, _⟩
    rw [hs, hid]
    exact score_co2Window he'

/-- C3 witness: a user with stored counter 5 appears on the all-time co2
board with score 100 = 5 × 20. -/
theorem environmentalImpact_times20_witness :
    exEntryCo2
      ∈ (getLeaderboard exStoreCounter exNow none (some "co2") (some "all") none).leaderboard
    ∧ exEntryCo2.score = exEntryCo2.numberOfPlants * 20 :=
  ⟨by decide,
   (environmentalImpact_times20 exStoreCounter exNow none none).1 exEntryCo2 (by decide)⟩

/-- C4 counterexample: with `timeRange=week`, an unrecognized category
does NOT produce the same leaderboard as `category=plants` — the fallback
ranks by the lifetime counter while the plants branch scans the window. -/
theorem fallback_differs_from_plants_week :
    ¬((getLeaderboard exStoreTwoUsers exNow none (some "bogus") (some "week")
          none).leaderboard
        = (getLeaderboard exStoreTwoUsers exNow none (some "plants") (some "week")
          none).leaderboard) := by decide

/-- C4 (amended): an unrecognized category yields the same leaderboard as
`category=plants` with `timeRange=all`, regardless of the requested time
range; for week/month this differs in general from `category=plants` with
the same time range, because the fallback ignores the window. -/
theorem fallback_matches_plants_allTime (s : Store) (now : Date) (sb tr : Option String)
    (lim : Option Nat) (cat : Option String)
    (h : cat.getD "plants" ∉ (["plants", "co2", "engagement"] : List String)) :
    (getLeaderboard s now sb cat tr lim).leaderboard
      = (getLeaderboard s now sb (some "plants") (some "all") lim).leaderboard :=
  fallback_board_eq s now sb tr lim cat h

/-- C4 witness: concrete instance of the amended fallback equality. -/
theorem fallback_matches_plants_allTime_witness :
    (getLeaderboard exStoreTwoUsers exNow none (some "bogus") (some "week")
        none).leaderboard
      = (getLeaderboard exStoreTwoUsers exNow none (some "plants") (some "all")
        none).leaderboard :=
  fallback_matches_plants_allTime exStoreTwoUsers exNow none (some "week") none
    (some "bogus") (by decide)

/-- C5 counterexample: on February 15 of year 1 a document created 31
days earlier (day number 380) passes the `month` filter although it is
older than now − 30 days — the code subtracts a calendar month
(`setMonth(getMonth() - 1)`), not 30 days. -/
theorem month_filter_not_30_days :
    matchTime (timeLowerBound "month" exNow) 380 = true
  ∧ ¬(toDayNumber exNow - 30 ≤ 380) := by decide

/-- C5 (corrected/amended): in both endpoints, `week` filters documents
created at or after now − 7 days, `month` filters at or after the same
day-of-month one calendar month earlier (JavaScript `setMonth`
normalization — not, in general, now − 30 days), and `all` applies no
bound. -/
theorem timeRange_lower_bounds (now : Date) (t : Int) (s : Store)
    (sb cat tr : Option String) :
    matchTime (timeLowerBound "week" now) t = decide (toDayNumber now - 7 ≤ t)
  ∧ matchTime (timeLowerBound "month" now) t = decide (monthAgoDay now ≤ t)
  ∧ matchTime (timeLowerBound "all" now) t = true
  ∧ (getLeaderboardStats s now cat tr).totalPosts
      = (s.posts.filter (fun p => matchTime (timeLowerBound (tr.getD "all") now)
          p.createdAt)).length
  ∧ (getLeaderboard s now sb (some "plants") tr (none : Option Nat)).leaderboard
      = assignRanks (if tr.getD "all" = "all" then plantsAllEntries s 10
          else plantsWindowEntries s (timeLowerBound (tr.getD "all") now) 10) 0 := by
  refine ⟨rfl, rfl, rfl, rfl, ?_⟩
  rw [getLeaderboard_leaderboard_eq]
  simp only [Option.getD_some]
  by_cases h : tr.getD "all" = "all"
  · rw [if_pos h, h, leaderboardUsers_plants_all]
    rfl
  · rw [if_neg h, leaderboardUsers_plants_window _ _ _ _ h]
    rfl

/-- C6 counterexample: two stores with identical user documents (stored
counter `numberOfPlants = 5`) but different post collections give
different all-time engagement leaderboards — so the all-time engagement
metric scans the post history and ignores the cumulative counter. -/
theorem engagement_allTime_scans :
    (getLeaderboard exStoreCounter exNow none (some "engagement") (some "all")
        none).leaderboard = []
  ∧ (getLeaderboard exStoreScan exNow none (some "engagement") (some "all")
        none).leaderboard.map (fun e => (e.id, e.score)) = [(1, 1)]
  ∧ exStoreCounter.users = exStoreScan.users := by decide

/-- C6 (corrected/amended): for `timeRange=all` only the plants and co2
metrics come from the cumulative stored counter `numberOfPlants`; the
engagement metric is computed by scanning the post and comment history
for every time range (with no creation-date bound when `timeRange=all`);
week/month plants are computed by scanning the window. -/
theorem allTime_counters_and_scans (s : Store) (now : Date) (sb : Option String)
    (lim : Option Nat) :
    (∀ e ∈ (getLeaderboard s now sb (some "plants") (some "all") lim).leaderboard,
        e.score = e.numberOfPlants)
  ∧ (∀ e ∈ (getLeaderboard s now sb (some "co2") (some "all") lim).leaderboard,
        e.score = e.numberOfPlants * 20)
  ∧ (∀ e ∈ (getLeaderboard s now sb (some "engagement") (some "all") lim).leaderboard,
        e.score = userPostCount s none e.id + userLikesReceived s none e.id
          + userCommentCount s none e.id)
  ∧ (∀ tr : Option String, tr.getD "all" ≠ "all" →
      ∀ e ∈ (getLeaderboard s now sb (some "plants") tr lim).leaderboard,
        e.score = userPlantCount s (timeLowerBound (tr.getD "all") now) e.id) := by
  refine ⟨?_, ?_, ?_, ?_⟩
  · intro e he
    rw [getLeaderboard_leaderboard_eq] at he
    simp only [Option.getD_some] at he
    rcases mem_assignRanks he with ⟨e', he', hs, _, hnp⟩
    rw [leaderboardUsers_plants_all] at he'
    rw [hs, hnp]
    exact score_plantsAll he'
  · intro e he
    rw [getLeaderboard_leaderboard_eq] at he
    simp only [Option.getD_some] at he
    rcases mem_assignRanks he with ⟨e', he', hs, _, hnp⟩
    rw [leaderboardUsers_co2_all] at he'
    rw [hs, hnp]
    exact score_co2All he'
  · intro e he
    rw [getLeaderboard_leaderboard_eq] at he
    simp only [Option.getD_some] at he
    rcases mem_assignRanks he with ⟨e', he', hs, hid, _⟩
    rw [leaderboardUsers_engagement, timeLowerBound_all] at he'
    rw [hs, hid]
    exact score_engagement he'
  · intro tr htr e he
    rw [getLeaderboard_leaderboard_eq] at he
    simp only [Option.getD_some] at he
    rw [leaderboardUsers_plants_window _ _ _ _ htr] at he
    rcases mem_assignRanks he with ⟨e', he', hs, hid, _⟩
    rw [hs, hid]
    exact score_plantsWindow he'

/-- C6 witness: concrete instance of the amended statement (all-time
engagement scores scan the history with no bound). -/
theorem allTime_counters_and_scans_witness :
    exEntryEngagement
      ∈ (getLeaderboard exStoreEngagement exNow none (some "engagement") (some "all")
          none).leaderboard
    ∧ exEntryEngagement.score
        = userPostCount exStoreEngagement none exEntryEngagement.id
          + userLikesReceived exStoreEngagement none exEntryEngagement.id
          + userCommentCount exStoreEngagement none exEntryEngagement.id :=
  ⟨by decide,
   (allTime_counters_and_scans exStoreEngagement exNow none none).2.2.1 exEntryEngagement
     (by decide)⟩

/-- C7 counterexample: with requested `limit=0` (falsy for
`parseInt(limit) || 10`, hence treated as 10) the board of a one-user
store has 1 entry, exceeding the requested limit 0. -/
theorem limit_zero_exceeds_requested :
    ¬((getLeaderboard exStoreCounter exNow none none none (some 0)).leaderboard.length
        ≤ 0) := by decide

/-- C7 (corrected/amended): the leaderboard never exceeds the effective
limit echoed in the response; the effective limit equals the requested
limit when it is positive and is 10 when the parameter is absent (or
zero, since `parseInt(limit) || 10` treats 0 as falsy).  The store's
user ids are assumed distinct (MongoDB `_id` uniqueness). -/
theorem getLeaderboard_length_le_limit (s : Store) (now : Date) (sb cat tr : Option String)
    (lim : Option Nat) (hu : (s.users.map (fun u => u.id)).Nodup) :
    (getLeaderboard s now sb cat tr lim).leaderboard.length
      ≤ (getLeaderboard s now sb cat tr lim).limit
  ∧ (getLeaderboard s now sb cat tr none).limit = 10
  ∧ (∀ n : Nat, 0 < n → (getLeaderboard s now sb cat tr (some n)).limit = n) := by
  refine ⟨?_, rfl, ?_⟩
  · rw [getLeaderboard_leaderboard_eq, assignRanks_length]
    exact length_leaderboardUsers _ _ _ _ _ hu
  · intro n hn
    show effLimit (some n) = n
    simp [effLimit, Nat.pos_iff_ne_zero.mp hn]

/-- C7 witness: concrete instance of the amended statement. -/
theorem getLeaderboard_length_le_limit_witness :
    ((getLeaderboard exStoreCounter exNow none none none none).leaderboard.length
      ≤ (getLeaderboard exStoreCounter exNow none none none none).limit)
  ∧ (getLeaderboard exStoreCounter exNow none none none none).limit = 10
  ∧ (getLeaderboard exStoreCounter exNow none none none (some 3)).limit = 3 := by
  obtain ⟨h1, h2, h3⟩ :=
    getLeaderboard_length_le_limit exStoreCounter exNow none none none none (by decide)
  exact ⟨h1, h2, h3 3 (by decide)⟩

/-- C8: `getLeaderboard` never errors: the empty store yields
`{ leaderboard: [], totalUsers: 0 }` for every parameter combination, and
so does any store with no qualifying users for the requested window — no
user documents at all; no plant-typed post in the window for the
plants/co2 categories; no post and no comment in the window for the
engagement category.  An unrecognized category falls back to the default
all-time plants board instead of erroring, and an unrecognized time range
falls back to the empty time filter (no creation-date bound). -/
theorem getLeaderboard_never_errors (now : Date) (sb cat tr : Option String)
    (lim : Option Nat) (s : Store) :
    (getLeaderboard emptyStore now sb cat tr lim).leaderboard = []
  ∧ (getLeaderboard emptyStore now sb cat tr lim).totalUsers = 0
  ∧ (s.users = [] →
      (getLeaderboard s now sb cat tr lim).leaderboard = []
      ∧ (getLeaderboard s now sb cat tr lim).totalUsers = 0)
  ∧ ((cat.getD "plants" = "plants" ∨ cat.getD "plants" = "co2") →
      tr.getD "all" ≠ "all" →
      plantFilteredPosts s (timeLowerBound (tr.getD "all") now) = [] →
      (getLeaderboard s now sb cat tr lim).leaderboard = []
      ∧ (getLeaderboard s now sb cat tr lim).totalUsers = 0)
  ∧ (cat.getD "plants" = "engagement" →
      timeFilteredPosts s (timeLowerBound (tr.getD "all") now) = [] →
      timeFilteredComments s (timeLowerBound (tr.getD "all") now) = [] →
      (getLeaderboard s now sb cat tr lim).leaderboard = []
      ∧ (getLeaderboard s now sb cat tr lim).totalUsers = 0)
  ∧ (cat.getD "plants" ∉ (["plants", "co2", "engagement"] : List String) →
      (getLeaderboard s now sb cat tr lim).leaderboard
        = (getLeaderboard s now sb (some "plants") (some "all") lim).leaderboard)
  ∧ (tr.getD "all" ≠ "week" → tr.getD "all" ≠ "month" →
      timeLowerBound (tr.getD "all") now = none) := by
  refine ⟨?_, ?_, ?_, ?_, ?_, fallback_board_eq s now sb tr lim cat, ?_⟩
  · rw [getLeaderboard_leaderboard_eq, leaderboardUsers_empty]
    rfl
  · show (assignRanks (leaderboardUsers emptyStore (cat.getD "plants") (tr.getD "all")
      (timeLowerBound (tr.getD "all") now) (effLimit lim)) 0).length = 0
    rw [leaderboardUsers_empty]
    rfl
  · intro h
    refine ⟨?_, ?_⟩
    · rw [getLeaderboard_leaderboard_eq, leaderboardUsers_users_nil _ _ _ _ _ h]
      rfl
    · show (assignRanks (leaderboardUsers s (cat.getD "plants") (tr.getD "all")
        (timeLowerBound (tr.getD "all") now) (effLimit lim)) 0).length = 0
      rw [leaderboardUsers_users_nil _ _ _ _ _ h]
      rfl
  · intro hcat htr hplant
    have hlb : leaderboardUsers s (cat.getD "plants") (tr.getD "all")
        (timeLowerBound (tr.getD "all") now) (effLimit lim) = [] := by
      rcases hcat with hc | hc
      · rw [hc, leaderboardUsers_plants_window _ _ _ _ htr,
          plantsWindowEntries_nil _ hplant]
      · rw [hc, leaderboardUsers_co2_window _ _ _ _ htr,
          co2WindowEntries_nil _ hplant]
    refine ⟨?_, ?_⟩
    · rw [getLeaderboard_leaderboard_eq, hlb]
      rfl
    · show (assignRanks (leaderboardUsers s (cat.getD "plants") (tr.getD "all")
        (timeLowerBound (tr.getD "all") now) (effLimit lim)) 0).length = 0
      rw [hlb]
      rfl
  · intro hcat hp hc
    have hlb : leaderboardUsers s (cat.getD "plants") (tr.getD "all")
        (timeLowerBound (tr.getD "all") now) (effLimit lim) = [] := by
      rw [hcat, leaderboardUsers_engagement, engagementEntries_nil _ hp hc]
    refine ⟨?_, ?_⟩
    · rw [getLeaderboard_leaderboard_eq, hlb]
      rfl
    · show (assignRanks (leaderboardUsers s (cat.getD "plants") (tr.getD "all")
        (timeLowerBound (tr.getD "all") now) (effLimit lim)) 0).length = 0
      rw [hlb]
      rfl
  · intro h1 h2
    rw [timeLowerBound, if_neg h1, if_neg h2]

/-- C8 witness: concrete instances — the empty store under unrecognized
parameters, a one-user store with no activity queried for plants/week and
engagement/week (qualifying-user sets empty, board `[]` with
`totalUsers = 0`), and the fallback equalities. -/
theorem getLeaderboard_never_errors_witness :
    (getLeaderboard emptyStore exNow none (some "bogus") (some "junk") none).leaderboard = []
  ∧ (getLeaderboard emptyStore exNow none (some "bogus") (some "junk") none).totalUsers = 0
  ∧ ((getLeaderboard emptyStore exNow none (some "plants") (some "month")
        none).leaderboard = []
      ∧ (getLeaderboard emptyStore exNow none (some "plants") (some "month")
          none).totalUsers = 0)
  ∧ ((getLeaderboard exStoreCounter exNow none (some "plants") (some "week")
        none).leaderboard = []
      ∧ (getLeaderboard exStoreCounter exNow none (some "plants") (some "week")
          none).totalUsers = 0)
  ∧ ((getLeaderboard exStoreCounter exNow none (some "engagement") (some "week")
        none).leaderboard = []
      ∧ (getLeaderboard exStoreCounter exNow none (some "engagement") (some "week")
          none).totalUsers = 0)
  ∧ (getLeaderboard exStoreCounter exNow none (some "bogus") (some "junk")
        none).leaderboard
      = (getLeaderboard exStoreCounter exNow none (some "plants") (some "all")
        none).leaderboard
  ∧ timeLowerBound ((some "junk" : Option String).getD "all") exNow = none := by
  obtain ⟨h1, h2, _, _, _, h6, h7⟩ :=
    getLeaderboard_never_errors exNow none (some "bogus") (some "junk") none exStoreCounter
  obtain ⟨_, _, h3, _, _, _, _⟩ :=
    getLeaderboard_never_errors exNow none (some "plants") (some "month") none emptyStore
  obtain ⟨_, _, _, h4, _, _, _⟩ :=
    getLeaderboard_never_errors exNow none (some "plants") (some "week") none exStoreCounter
  obtain ⟨_, _, _, _, h5, _, _⟩ :=
    getLeaderboard_never_errors exNow none (some "engagement") (some "week") none
      exStoreCounter
  exact ⟨h1, h2, h3 rfl, h4 (Or.inl rfl) (by decide) (by decide),
    h5 rfl (by decide) (by decide), h6 (by decide), h7 (by decide) (by decide)⟩

/-- C9: the `sortBy` query parameter has no effect on the response of
`getLeaderboard`: two requests differing only in `sortBy` produce
identical responses. -/
theorem getLeaderboard_ignores_sortBy (s : Store) (now : Date) (cat tr : Option String)
    (lim : Option Nat) (sb1 sb2 : Option String) :
    getLeaderboard s now sb1 cat tr lim = getLeaderboard s now sb2 cat tr lim := rfl

/-- C10: in every `getLeaderboard` response, `totalUsers` equals the
length of the (already truncated) leaderboard list, not the platform-wide
user count; the platform-wide all-time count is the `totalUsers` of the
`platformStats` block of `getLeaderboardStats`. -/
theorem totalUsers_is_board_length (s : Store) (now : Date) (sb cat tr : Option String)
    (lim : Option Nat) :
    (getLeaderboard s now sb cat tr lim).totalUsers
      = (getLeaderboard s now sb cat tr lim).leaderboard.length
  ∧ (∀ cat2 tr2 : Option String,
      (getLeaderboardStats s now cat2 tr2).totalUsers = s.users.length) :=
  ⟨rfl, fun _ _ => rfl⟩
